import Mathlib

/-!
Verification development for the `rumlibrs` scraper core
(`src/scraper/leetx.rs`, `LeetxScraper`).

The Rust code is shallowly embedded below.  Pure string processing is
translated directly; the external crates are modelled at their interface
boundary:

* `reqwest` fetches are oracle functions `String → Except HttpError _`
  (the URL determines the response);
* `scraper` (`Html::parse_document` + CSS selectors) is modelled by the
  `Doc` / `PageDoc` structures holding exactly the data each selector
  expression in the source extracts from the fetched document;
* the two regular expressions the source compiles (`\[(.*?)\]` and
  `.*/(\d*)/.*`) are modelled operationally on `List Char`, following the
  regex crate's leftmost-first semantics with greedy/lazy preference and
  with `.` not matching a newline (digits are modelled as ASCII digits);
* `url::Url::join` is abstracted: `parse_game` receives the already
  resolved URL string (resolution failure, `UrlError`, is not under test).

Rust `BTreeSet<String>` becomes `Finset String` (unordered deduplicated
collection; no claim depends on iteration order), stream combinators become
their list analogues (buffering only changes completion interleaving, not
the multiset of produced outcomes), and Rust's `?`/`Result` becomes
`Except`.
-/

/-! ## String primitives (Rust `str` operations, on `List Char`) -/

/-- Rust `s.strip_prefix(" ").unwrap_or(s)`: drop one leading space char. -/
def dropLeadSpace : List Char → List Char
  | ' ' :: rest => rest
  | l => l

/-- Rust `s.strip_suffix("\n").unwrap_or(s)`: drop one trailing newline. -/
def dropTrailNl (l : List Char) : List Char :=
  if l.getLast? = some '\n' then l.dropLast else l

/-- Rust `s.strip_suffix(" ").unwrap_or(s)`: drop one trailing space. -/
def dropTrailSpace (l : List Char) : List Char :=
  if l.getLast? = some ' ' then l.dropLast else l

/-- Rust `s.split(c)` for a single-character pattern: the list of chunks
between occurrences of `c`, always non-empty, keeping empty chunks
(`"a::b".split(':')` gives `["a", "", "b"]`). -/
def splitOnChar (sep : Char) : List Char → List (List Char)
  | [] => [[]]
  | c :: rest =>
    match splitOnChar sep rest with
    | [] => [[]]
    | h :: t => if c = sep then [] :: h :: t else (c :: h) :: t

/-- The chunk of `l` before the first occurrence of `sep` (all of `l` when
`sep` does not occur). -/
def takeNotC (sep : Char) : List Char → List Char
  | [] => []
  | c :: rest => if c = sep then [] else c :: takeNotC sep rest

/-- The rest of `l` after the first occurrence of `sep` (empty when `sep`
does not occur). -/
def dropAfterC (sep : Char) : List Char → List Char
  | [] => []
  | c :: rest => if c = sep then rest else dropAfterC sep rest

/-- Helper for `containsL`: is `pat` a prefix of `l`? -/
def isPrefixL : List Char → List Char → Bool
  | [], _ => true
  | _ :: _, [] => false
  | a :: as, b :: bs => a = b && isPrefixL as bs

/-- Rust `hay.contains(pat)` (substring containment). -/
def containsL (hay pat : List Char) : Bool :=
  match hay with
  | [] => isPrefixL pat []
  | _ :: rest => isPrefixL pat hay || containsL rest pat

/-- Substring containment on `String`s, as Rust's `str::contains`. -/
def containsStr (s pat : String) : Bool :=
  containsL s.data pat.data

/-! ## Models of the two compiled regular expressions -/

/-- One step of `RE_TAGS = \[(.*?)\]` capture collection: `acc = none`
while scanning for `[`, `acc = some cs` while lazily collecting a capture
(in reverse) up to the next `]`.  The lazy `.` cannot match a newline, so
a candidate `[` whose next `]` lies beyond a `\n` fails — and every other
`[` before that newline then fails against the same newline (there is no
`]` in between, or the earlier candidate would have closed), so scanning
soundly resumes after the `\n`.  An unclosed `[` at the end of the input
produces no further matches, exactly as the regex finds no further match. -/
def bracketCapsAux : List Char → Option (List Char) → List String
  | [], _ => []
  | c :: rest, none =>
    if c = '[' then bracketCapsAux rest (some []) else bracketCapsAux rest none
  | c :: rest, some acc =>
    if c = ']' then String.mk acc.reverse :: bracketCapsAux rest none
    else if c = '\n' then bracketCapsAux rest none
    else bracketCapsAux rest (some (c :: acc))

/-- All captures of `\[(.*?)\]` over the input, in order. -/
def bracketCaps (l : List Char) : List String :=
  bracketCapsAux l none

/-- Does `(\d*)/...` match at the start of `l` with `l` preceded by `/`?
Returns the captured (possibly empty) digit run, which must be followed
by a `/`. -/
def slashNumAt : List Char → Option String
  | '/' :: t =>
    match t.drop (t.takeWhile Char.isDigit).length with
    | '/' :: _ => some (String.mk (t.takeWhile Char.isDigit))
    | _ => none
  | _ => none

/-- The capture of `.*/(\d*)/.*` WITHIN one newline-free segment, at the
latest feasible starting position: starting from the segment's beginning,
the greedy leading `.*` makes the regex engine prefer the last position at
which `/(\d*)/` matches. -/
def lastSlashNumAux : List Char → Option String
  | [] => none
  | c :: rest =>
    match lastSlashNumAux rest with
    | some r => some r
    | none => slashNumAt (c :: rest)

/-- The first newline-free segment holding a feasible `/(\d*)/` match
determines the regex result (leftmost-first matching with `.` excluding
`\n`: no pattern character can match a newline, so a match never crosses
one, and the leftmost match start is the beginning of the first segment
containing a feasible position). -/
def firstSegSlashNum : List (List Char) → Option String
  | [] => none
  | seg :: rest =>
    match lastSlashNumAux seg with
    | some r => some r
    | none => firstSegSlashNum rest

/-- First capture of `RE_ID = RE_PAGE = .*/(\d*)/.*` on a string
(`captures_iter(..).next()` in the source): split at newlines, take the
first segment with a match, and inside it the greedy-`.*` (last) match. -/
def lastSlashNum (s : String) : Option String :=
  firstSegSlashNum (splitOnChar '\n' s.data)

/-- Decimal value of a digit list (big-endian), accumulator style. -/
def digitsValAux (acc : Nat) : List Char → Nat
  | [] => acc
  | c :: rest => digitsValAux (acc * 10 + (c.toNat - '0'.toNat)) rest

/-- Rust `s.parse::<usize>().ok()` on a digit string: fails on the empty
string, on non-digits and on 64-bit overflow (usize is modelled as 64-bit). -/
def parseUsize (s : String) : Option Nat :=
  if s.data = [] then none
  else if s.data.all Char.isDigit then
    if digitsValAux 0 s.data < 2 ^ 64 then some (digitsValAux 0 s.data) else none
  else none

/-! ## Error and data model (`ScrapeError`, `Game`) -/

/-- An opaque-to-this-code `reqwest::Error` (the transport failure). -/
structure HttpError where
  msg : String
deriving DecidableEq

/-- `ScrapeError` from `leetx.rs` lines 13–29.  The spec's names map as
`Transport` = `HttpError`, `UrlInvalid` = `UrlError`,
`Malformed` = `Game` (field message + url), `PageMalformed` = `Page`
(message + page number); `Other` is the catch-all `ScrapeError::Other`. -/
inductive ScrapeError where
  | HttpError (e : HttpError)
  | UrlError (msg : String)
  | Game (message : String) (url : String)
  | Page (message : String) (page : Nat)
  | Other (msg : String)
deriving DecidableEq

/-- Discriminator: is this error the `Page` (spec: `PageMalformed`) kind? -/
def ScrapeError.isPageErr : ScrapeError → Bool
  | .Page _ _ => true
  | _ => false

/-- Discriminator: is this error the `Game` (spec: `Malformed`) kind? -/
def ScrapeError.isGameErr : ScrapeError → Bool
  | .Game _ _ => true
  | _ => false

/-- The `Game` record (`leetx.rs` lines 47–67); spec: `CatalogRecord`. -/
structure Game where
  hash : String
  name : String
  version : Option String
  description : String
  id : Nat
  size : String
  genres : Finset String
  tags : Finset String
  languages : Finset String
deriving DecidableEq

deriving instance DecidableEq for Except

/-! ## Document abstractions (the `scraper` crate boundary) -/

/-- A fetched listing page, reduced to what `parse_page` selects from it:
for each element matching `td.coll-1 a:nth-child(2)`, in document order,
its `href` attribute (`none` when the anchor has no `href`). -/
abbrev PageDoc := List (Option String)

/-- A fetched detail page, reduced to what `parse_game` selects from it:

* `nameText`: first text node of the first `#description p.align-center strong`;
* `subtitleText`: first text node of the second `#description p.align-center span`;
* `hashText`: first text node of the first `.infohash-box span`;
* `sizeText`: first text node of the fourth `.box-info .list li span`;
* `infoFragments`: the ordered text-node sequence of the first
  `#description p` surviving the `skip_while` heading filter
  (`none` when every paragraph is skipped).

`none` in the first four fields means the selector matched nothing (or the
matched element had no text node). -/
structure Doc where
  nameText : Option String
  subtitleText : Option String
  hashText : Option String
  sizeText : Option String
  infoFragments : Option (List String)
deriving DecidableEq

/-! ## The parsing functions (`LeetxScraper`) -/

/-- `parse_tags` (lines 227–242): every `\[(.*?)\]` capture of the
subtitle, the uploader tag filtered out, the two literal renames applied,
collected into a set. -/
def parse_tags (subtitle : String) : Finset String :=
  (((bracketCaps subtitle.data).filter (fun t => t ≠ "johncena141")).map
    (fun t =>
      if t = "GNU/Linux Wine" then "Wine"
      else if t = "GNU/Linux Native" then "Native"
      else t)).toFinset

/-- `parse_items` (lines 244–256): `line.split(":").skip(1).next()` is the
chunk between the first and second colon (absent exactly when the line has
no colon, which yields `ScrapeError::Other("items list")`); then one
leading space and one trailing newline are stripped, the chunk is split on
commas, and one leading space is stripped from each piece. -/
def parse_items (line : String) : Except ScrapeError (Finset String) :=
  match splitOnChar ':' line.data with
  | _ :: seg :: _ =>
    let seg := dropTrailNl (dropLeadSpace seg)
    .ok (((splitOnChar ',' seg).map (fun i => String.mk (dropLeadSpace i))).toFinset)
  | _ => .error (.Other "items list")

/-- The version computation inlined in `parse_game` (lines 306–314): the
chunk of the subtitle before the first space (Rust `split(" ").next()`,
always present) becomes the version unless it contains both `[` and `]`. -/
def parse_version (subtitle : String) : Option String :=
  match splitOnChar ' ' subtitle.data with
  | v :: _ => if '[' ∈ v ∧ ']' ∈ v then none else some (String.mk v)
  | [] => none

/-- The first space-chunk of a string (what `split(" ").next()` yields). -/
def firstTok (s : String) : List Char :=
  (splitOnChar ' ' s.data).headD []

/-- `firstTok` as a `String`. -/
def firstTokStr (s : String) : String :=
  String.mk (firstTok s)

/-- The info-box scan of `parse_game` (lines 358–373): a fold over the
text fragments with the `description_state` flag, the accumulating
description and the genre/language sets; a `parse_items` failure aborts
with its error (the `?` in the loop body). -/
def scanInfo : List String → Bool → String → Finset String → Finset String →
    Except ScrapeError (String × Finset String × Finset String)
  | [], _, d, g, l => .ok (d, g, l)
  | t :: rest, flag, d, g, l =>
    if flag then
      scanInfo rest flag (d ++ String.mk (dropLeadSpace t.data)) g l
    else if containsStr t "Genre:" then
      match parse_items t with
      | .error e => .error e
      | .ok g2 => scanInfo rest flag d g2 l
    else if containsStr t "Language:" then
      match parse_items t with
      | .error e => .error e
      | .ok l2 => scanInfo rest flag d g l2
    else if containsStr t "Description" then
      scanInfo rest true d g l
    else
      scanInfo rest flag d g l

/-- `parse_game` (lines 258–386), from the resolved URL on (URL join
abstracted, see the header).  `fetch` is the `reqwest::get(url)` +
`Html::parse_document` oracle; every selector-extraction failure produces
the field-named `ScrapeError::Game` error of the source, and the record is
only built once every field has been extracted. -/
def parse_game (fetch : String → Except HttpError Doc) (url : String) :
    Except ScrapeError Game :=
  match (lastSlashNum url).bind parseUsize with
  | none => .error (.Game "1337x id from url" url)
  | some id =>
    match fetch url with
    | .error e => .error (.HttpError e)
    | .ok document =>
      match document.nameText with
      | none => .error (.Game "name" url)
      | some n =>
        let name := String.mk (dropTrailSpace n.data)
        match document.subtitleText with
        | none => .error (.Game "subtitle" url)
        | some subtitle =>
          let version := parse_version subtitle
          let tags := parse_tags subtitle
          match document.hashText with
          | none => .error (.Game "hash" url)
          | some hash =>
            match document.sizeText with
            | none => .error (.Game "size" url)
            | some size =>
              match document.infoFragments with
              | none => .error (.Game "info" url)
              | some frags =>
                match scanInfo frags false "" ∅ ∅ with
                | .error e => .error e
                | .ok (description, genres, languages) =>
                  .ok { hash := hash, name := name, version := version,
                        description := description, id := id, size := size,
                        genres := genres, tags := tags, languages := languages }

/-- The listing-page URL `format!("{}/{}-torrents/{}/", base, uploader, page)`. -/
def pageUrl (base_url uploader : String) (page : Nat) : String :=
  base_url ++ "/" ++ uploader ++ "-torrents/" ++ toString page ++ "/"

/-- `parse_page` (lines 418–443): a fetch failure propagates through `?`
as `ScrapeError::HttpError`; otherwise the hrefs of the selected anchors
are collected (`filter_map`), an empty match list being a success. -/
def parse_page (fetch : String → Except HttpError PageDoc) (page : Nat)
    (base_url uploader : String) : Except ScrapeError (List String) :=
  match fetch (pageUrl base_url uploader page) with
  | .error e => .error (.HttpError e)
  | .ok doc => .ok (doc.filterMap id)

/-- `get_num_pages` (lines 388–416), from the fetched page-1 document on:
the input is the `href` of the first `div.pagination li.last a` element
(`none` when the selector matches nothing or the anchor has no `href`). -/
def get_num_pages (href? : Option String) : Except ScrapeError Nat :=
  match href? with
  | none => .error (.Page "pagination" 1)
  | some href =>
    match (lastSlashNum href).bind parseUsize with
    | none => .error (.Page "page number from pagination link" 1)
    | some page => .ok page

/-! ## The pipeline (`get_pages_futures` … `get_games_n_pages`)

Modelled as list processing: `stream::iter(first_page..).map(...)`
truncated by `.take(num_pages)` is `List.range' first_page num_pages`;
`.buffered(n)` / `.try_buffered(n)` only bound how many of the already
scheduled fetches are concurrently in flight and pass every underlying
item through (an `Err` item of the underlying `TryStream` is yielded and
polling continues), so on the level of the produced outcome sequence they
are the identity / the future-running map below. -/

/-- The per-page conversion of `get_pages_futures` (lines 126–144):
`map_ok_or_else` turns a failed page into the singleton error iterator and
a successful page into its links as `Ok` items. -/
def pageToItems : Except ScrapeError (List String) → List (Except ScrapeError String)
  | .error e => [.error e]
  | .ok page => page.map Except.ok

/-- `get_urls_n_pages_buffered` (lines 146–155): pages `first_page`,
`first_page+1`, …, truncated to `num_pages`, each fetched and flattened
into the item stream. -/
def get_urls_n_pages_buffered (pfetch : String → Except HttpError PageDoc)
    (base_url uploader : String) (first_page num_pages : Nat) :
    List (Except ScrapeError String) :=
  ((List.range' first_page num_pages).map
    (fun i => pageToItems (parse_page pfetch i base_url uploader))).flatten

/-- `get_games_n_pages` (lines 157–166): `map_ok` schedules `parse_game`
for every `Ok` url and `try_buffered` runs it; `Err` items pass through. -/
def get_games_n_pages (pfetch : String → Except HttpError PageDoc)
    (gfetch : String → Except HttpError Doc)
    (base_url uploader : String) (first_page num_pages : Nat) :
    List (Except ScrapeError Game) :=
  (get_urls_n_pages_buffered pfetch base_url uploader first_page num_pages).map
    (fun r =>
      match r with
      | .ok url => parse_game gfetch url
      | .error e => .error e)

/-! ## Claim-statement definitions and witness fixtures -/

/-- The C3 claim's reading of list parsing, in its own words: split the
fragment on its FIRST colon and take EVERYTHING after that first colon,
then trim one leading space and one trailing newline, split on commas and
trim one leading space from each piece; fail with the `"items list"` error
exactly when the fragment contains no colon. -/
def parse_items_claimSpec (line : String) : Except ScrapeError (Finset String) :=
  if ':' ∈ line.data then
    let seg := dropTrailNl (dropLeadSpace (dropAfterC ':' line.data))
    .ok (((splitOnChar ',' seg).map (fun i => String.mk (dropLeadSpace i))).toFinset)
  else .error (.Other "items list")

/-- The amended reading of C3: the code keeps only the chunk BETWEEN the
first and the second colon (which is everything after the first colon only
when no second colon exists), and the no-colon failure is the catch-all
`ScrapeError::Other "items list"`, not the url-carrying `Game` error the
spec calls `Malformed`. -/
def parse_items_amendedSpec (line : String) : Except ScrapeError (Finset String) :=
  if ':' ∈ line.data then
    let seg := dropTrailNl (dropLeadSpace (takeNotC ':' (dropAfterC ':' line.data)))
    .ok (((splitOnChar ',' seg).map (fun i => String.mk (dropLeadSpace i))).toFinset)
  else .error (.Other "items list")

/-- The C7 claim's bracketed-token test: the token is of the form `[...]`
(first character `[`, last character `]`). -/
def isBracketForm (l : List Char) : Bool :=
  (l.head? == some '[') && (l.getLast? == some ']')

/-- A detail document whose info block carries the uploader tag as a genre
and an unrenamed `GNU/Linux` tag as a language (for C5). -/
def c5doc : Doc :=
  { nameText := some "SomeGame", subtitleText := some "1.0 [johncena141]",
    hashText := some "abcd", sizeText := some "4.2 GB",
    infoFragments := some ["Genre: johncena141", "Language: GNU/Linux Wine"] }

/-- Fetch oracle serving `c5doc`. -/
def c5fetch : String → Except HttpError Doc := fun _ => .ok c5doc

/-- The record `parse_game` builds from `c5doc`. -/
def c5game : Game :=
  { hash := "abcd", name := "SomeGame", version := some "1.0", description := "",
    id := 123, size := "4.2 GB", genres := {"johncena141"}, tags := ∅,
    languages := {"GNU/Linux Wine"} }

/-- A fetch oracle whose every request fails with a transport error
(for C4). -/
def c4fetch : String → Except HttpError PageDoc := fun _ => .error ⟨"timeout"⟩

/-- A detail document, parameterised by its hash region (for C8). -/
def c8doc (hash? : Option String) : Doc :=
  { nameText := some "N", subtitleText := some "1.0 [GNU/Linux Wine]",
    hashText := hash?, sizeText := some "1 GB",
    infoFragments := some ["Genre: Action", "Description", " Fun game"] }

/-- One listing page with three item links (for C8). -/
def c8pfetch : String → Except HttpError PageDoc :=
  fun _ => .ok [some "/torrent/1/a/", some "/torrent/2/b/", some "/torrent/3/c/"]

/-- Detail fetch oracle: the second item's document lacks its hash region. -/
def c8gfetch : String → Except HttpError Doc :=
  fun u => if u = "/torrent/2/b/" then .ok (c8doc none) else .ok (c8doc (some "cafebabe"))

/-- The record parsed for the first C8 item. -/
def c8game1 : Game :=
  { hash := "cafebabe", name := "N", version := some "1.0", description := "Fun game",
    id := 1, size := "1 GB", genres := {"Action"}, tags := {"Wine"}, languages := ∅ }

/-- The record parsed for the third C8 item. -/
def c8game3 : Game :=
  { hash := "cafebabe", name := "N", version := some "1.0", description := "Fun game",
    id := 3, size := "1 GB", genres := {"Action"}, tags := {"Wine"}, languages := ∅ }

/-- Page-fetch oracle for the C1 witness: one link per successful page, a
failing fetch for page 3. -/
def c1pfetch : String → Except HttpError PageDoc :=
  fun s => if s = pageUrl "b" "u" 3 then .error ⟨"boom"⟩ else .ok [some "/torrent/7/x/"]

/-- Detail-fetch oracle for the C1 witness: every item fetch fails. -/
def c1gfetch : String → Except HttpError Doc := fun _ => .error ⟨"nofetch"⟩

/-! ## Helper lemmas about the string primitives -/

theorem splitOnChar_ne_nil (sep : Char) (l : List Char) : splitOnChar sep l ≠ [] := by
  cases l with
  | nil => simp [splitOnChar]
  | cons c rest =>
    simp only [splitOnChar]
    cases h : splitOnChar sep rest with
    | nil => simp
    | cons a t => by_cases hc : c = sep <;> simp [hc]

theorem splitOnChar_eq_cons (sep : Char) (l : List Char) :
    splitOnChar sep l = takeNotC sep l ::
      (if sep ∈ l then splitOnChar sep (dropAfterC sep l) else []) := by
  induction l with
  | nil => simp [splitOnChar, takeNotC]
  | cons c rest ih =>
    rcases hs : splitOnChar sep rest with _ | ⟨h0, t0⟩
    · exact absurd hs (splitOnChar_ne_nil sep rest)
    · by_cases hc : c = sep
      · subst hc
        simp only [splitOnChar, hs]
        simp [takeNotC, dropAfterC, hs]
      · have hsc : ¬sep = c := fun h => hc h.symm
        rw [hs] at ih
        injection ih with h1 h2
        simp only [splitOnChar, hs, if_neg hc, takeNotC, dropAfterC,
          List.mem_cons, hsc, false_or]
        rw [← h1, ← h2]

theorem splitOnChar_of_not_mem {sep : Char} {l : List Char} (h : sep ∉ l) :
    splitOnChar sep l = [l] := by
  rw [splitOnChar_eq_cons, if_neg h]
  have : takeNotC sep l = l := by
    induction l with
    | nil => rfl
    | cons c rest ih =>
      have hc : ¬c = sep := fun hEq => h (hEq ▸ List.mem_cons_self c rest)
      simp only [takeNotC, if_neg hc]
      rw [ih (fun hm => h (List.mem_cons_of_mem c hm))]
  rw [this]

theorem isPrefixL_mem {pat hay : List Char} (h : isPrefixL pat hay = true) :
    ∀ x ∈ pat, x ∈ hay := by
  induction pat generalizing hay with
  | nil => simp
  | cons a as ih =>
    cases hay with
    | nil => simp [isPrefixL] at h
    | cons b bs =>
      simp only [isPrefixL, Bool.and_eq_true, decide_eq_true_eq] at h
      intro x hx
      rcases List.mem_cons.1 hx with rfl | hx
      · exact h.1 ▸ List.mem_cons_self _ _
      · exact List.mem_cons_of_mem _ (ih h.2 x hx)

theorem containsL_mem {hay pat : List Char} (h : containsL hay pat = true) :
    ∀ x ∈ pat, x ∈ hay := by
  induction hay with
  | nil =>
    cases pat with
    | nil => simp
    | cons a as => simp [containsL, isPrefixL] at h
  | cons c rest ih =>
    simp only [containsL, Bool.or_eq_true] at h
    rcases h with h | h
    · exact isPrefixL_mem h
    · exact fun x hx => List.mem_cons_of_mem _ (ih h x hx)

theorem containsStr_mem {s pat : String} (h : containsStr s pat = true) :
    ∀ x ∈ pat.data, x ∈ s.data :=
  containsL_mem h

/-- A fragment containing a colon never takes the `Other "items list"`
branch of `parse_items`: the colon split has a second chunk. -/
theorem parse_items_ok_of_colon {line : String} (h : ':' ∈ line.data) :
    ∃ s, parse_items line = .ok s := by
  unfold parse_items
  rw [splitOnChar_eq_cons, if_pos h]
  rcases List.exists_cons_of_ne_nil
      (splitOnChar_ne_nil ':' (dropAfterC ':' line.data)) with ⟨b, t, hbt⟩
  rw [hbt]
  exact ⟨_, rfl⟩

/-- `parse_version` in terms of the first space-chunk of the subtitle. -/
theorem parse_version_eq (s : String) :
    parse_version s =
      if '[' ∈ firstTok s ∧ ']' ∈ firstTok s then none else some (firstTokStr s) := by
  rcases hs : splitOnChar ' ' s.data with _ | ⟨v, t⟩
  · exact absurd hs (splitOnChar_ne_nil ' ' s.data)
  · have hft : firstTok s = v := by unfold firstTok; rw [hs]; rfl
    unfold parse_version firstTokStr
    rw [hs, hft]

/-- Every member of the tag set differs from the uploader tag and from the
two unrenamed `GNU/Linux` strings. -/
theorem mem_parse_tags {s x : String} (hmem : x ∈ parse_tags s) :
    x ≠ "johncena141" ∧ x ≠ "GNU/Linux Wine" ∧ x ≠ "GNU/Linux Native" := by
  unfold parse_tags at hmem
  rw [List.mem_toFinset] at hmem
  rcases List.mem_map.1 hmem with ⟨t, ht, hEq⟩
  have hne : t ≠ "johncena141" := by
    rcases List.mem_filter.1 ht with ⟨-, hp⟩
    simpa using hp
  subst hEq
  by_cases h1 : t = "GNU/Linux Wine"
  · rw [if_pos h1]
    exact ⟨by decide, by decide, by decide⟩
  · by_cases h2 : t = "GNU/Linux Native"
    · rw [if_neg h1, if_pos h2]
      exact ⟨by decide, by decide, by decide⟩
    · rw [if_neg h1, if_neg h2]
      exact ⟨hne, h1, h2⟩

/-- The `.*/(\d*)/.*` capture on anything ending in `/42/` is `42`: the
greedy leading `.*` selects the last position where `/(\d*)/` matches,
and that is the trailing `/42/`. -/
theorem lastSlashNumAux_append42 (l : List Char) :
    lastSlashNumAux (l ++ ['/', '4', '2', '/']) = some "42" := by
  induction l with
  | nil => decide
  | cons c rest ih =>
    rw [List.cons_append]
    simp only [lastSlashNumAux, ih]

/-- Loop step on a genre fragment (flag unset). -/
theorem scanInfo_genre_step (t : String) (g2 : Finset String) {rest : List String}
    {d : String} {g l : Finset String}
    (h1 : containsStr t "Genre:" = true) (h2 : parse_items t = .ok g2) :
    scanInfo (t :: rest) false d g l = scanInfo rest false d g2 l := by
  simp [scanInfo, h1, h2]

/-- Loop step on a language fragment (flag unset, no genre marker). -/
theorem scanInfo_language_step (t : String) (l2 : Finset String) {rest : List String}
    {d : String} {g l : Finset String}
    (h0 : containsStr t "Genre:" = false)
    (h1 : containsStr t "Language:" = true) (h2 : parse_items t = .ok l2) :
    scanInfo (t :: rest) false d g l = scanInfo rest false d g l2 := by
  simp [scanInfo, h0, h1, h2]

/-- Loop step on a description-marker fragment (flag unset, no genre or
language marker): the flag is set and nothing else changes — the marker
fragment contributes nothing to the description. -/
theorem scanInfo_marker_step (t : String) {rest : List String}
    {d : String} {g l : Finset String}
    (h0 : containsStr t "Genre:" = false) (h1 : containsStr t "Language:" = false)
    (h2 : containsStr t "Description" = true) :
    scanInfo (t :: rest) false d g l = scanInfo rest true d g l := by
  simp [scanInfo, h0, h1, h2]

/-- Loop step with the flag set: the fragment, with a single leading space
stripped if present, is appended to the description. -/
theorem scanInfo_desc_step (t : String) {rest : List String}
    {d : String} {g l : Finset String} :
    scanInfo (t :: rest) true d g l =
      scanInfo rest true (d ++ String.mk (dropLeadSpace t.data)) g l := by
  simp [scanInfo]

/-! ## Claim C1: a page failure does not end the crawl -/

/-- C1: in a 5-page crawl starting at page 1 where the fetch of page 3
fails and the other four pages succeed, the outcome sequence is exactly
the item outcomes of pages 1 and 2, then a single failing outcome standing
in for page 3, then the item outcomes of pages 4 and 5 — the sequence is
the full finite list (the stream terminates), so the page failure neither
aborts the crawl nor suppresses later pages. -/
theorem c1_page_failure_isolated_and_stream_completes
    (pf : String → Except HttpError PageDoc) (gf : String → Except HttpError Doc)
    (b u : String) (l1 l2 l4 l5 : PageDoc) (e : HttpError)
    (h1 : pf (pageUrl b u 1) = .ok l1) (h2 : pf (pageUrl b u 2) = .ok l2)
    (h3 : pf (pageUrl b u 3) = .error e)
    (h4 : pf (pageUrl b u 4) = .ok l4) (h5 : pf (pageUrl b u 5) = .ok l5) :
    get_games_n_pages pf gf b u 1 5 =
      (l1.filterMap id).map (parse_game gf) ++ (l2.filterMap id).map (parse_game gf)
      ++ [.error (.HttpError e)]
      ++ (l4.filterMap id).map (parse_game gf) ++ (l5.filterMap id).map (parse_game gf) := by
  have hr : List.range' 1 5 = [1, 2, 3, 4, 5] := rfl
  simp only [get_games_n_pages, get_urls_n_pages_buffered, hr, List.map_cons, List.map_nil,
    parse_page, h1, h2, h3, h4, h5, pageToItems, List.flatten_cons, List.flatten_nil,
    List.map_append, List.map_map, List.append_nil, List.append_assoc]
  simp [Function.comp_def]

/-- C1 witness, at the concrete 5-page crawl with page 3 failing. -/
theorem c1_witness :
    (c1pfetch (pageUrl "b" "u" 1) = .ok [some "/torrent/7/x/"]
      ∧ c1pfetch (pageUrl "b" "u" 2) = .ok [some "/torrent/7/x/"]
      ∧ c1pfetch (pageUrl "b" "u" 3) = .error ⟨"boom"⟩
      ∧ c1pfetch (pageUrl "b" "u" 4) = .ok [some "/torrent/7/x/"]
      ∧ c1pfetch (pageUrl "b" "u" 5) = .ok [some "/torrent/7/x/"])
    ∧ get_games_n_pages c1pfetch c1gfetch "b" "u" 1 5 =
      (([some "/torrent/7/x/"] : PageDoc).filterMap id).map (parse_game c1gfetch)
      ++ (([some "/torrent/7/x/"] : PageDoc).filterMap id).map (parse_game c1gfetch)
      ++ [.error (.HttpError ⟨"boom"⟩)]
      ++ (([some "/torrent/7/x/"] : PageDoc).filterMap id).map (parse_game c1gfetch)
      ++ (([some "/torrent/7/x/"] : PageDoc).filterMap id).map (parse_game c1gfetch) :=
  ⟨⟨by decide, by decide, by decide, by decide, by decide⟩,
    c1_page_failure_isolated_and_stream_completes c1pfetch c1gfetch "b" "u"
      [some "/torrent/7/x/"] [some "/torrent/7/x/"] [some "/torrent/7/x/"]
      [some "/torrent/7/x/"] ⟨"boom"⟩
      (by decide) (by decide) (by decide) (by decide) (by decide)⟩

/-! ## Claim C2: the info-block extractor on a marked fragment sequence -/

/-- C2 counterexample: the claim quantifies over EVERY middle fragment
containing `"Description"`, but a fragment that also contains `"Genre:"`
(here `"Genre: Description"`) is classified by the earlier genre branch:
it overwrites the genre set and never sets the flag, so the extractor
output differs from the claimed one. -/
theorem c2_cex_marker_fragment_with_genre :
    containsStr "Genre: Description" "Description" = true
    ∧ scanInfo ["Genre: A, B", "Language: C", "Genre: Description", "Hello ", "world"]
        false "" ∅ ∅ = .ok ("", {"Description"}, {"C"})
    ∧ (.ok ("", ({"Description"} : Finset String), ({"C"} : Finset String)) :
          Except ScrapeError (String × Finset String × Finset String)) ≠
        .ok ("Hello world", {"A", "B"}, {"C"}) :=
  ⟨by decide, by decide, by decide⟩

/-- C2 as amended: for the fragment sequence `"Genre: A, B"`,
`"Language: C"`, then a fragment containing `"Description"` but neither
`"Genre:"` nor `"Language:"`, then `"Hello "` and `"world"`, the extractor
yields genres `{A, B}`, languages `{C}` and description `"Hello world"`;
the marker fragment contributes nothing, and each fragment consumed with
the flag set is appended with a single leading space stripped if present. -/
theorem c2_amended_extractor_on_marked_sequence :
    (∀ d : String, containsStr d "Description" = true →
      containsStr d "Genre:" = false → containsStr d "Language:" = false →
      scanInfo ["Genre: A, B", "Language: C", d, "Hello ", "world"] false "" ∅ ∅ =
        .ok ("Hello world", {"A", "B"}, {"C"}))
    ∧ (∀ (t : String) (rest : List String) (dsc : String) (g l : Finset String),
        scanInfo (t :: rest) true dsc g l =
          scanInfo rest true (dsc ++ String.mk (dropLeadSpace t.data)) g l)
    ∧ scanInfo ["  two spaces"] true "" ∅ ∅ = .ok (" two spaces", ∅, ∅) := by
  refine ⟨?_, fun t rest dsc g l => scanInfo_desc_step t, by decide⟩
  intro d h1 h2 h3
  rw [scanInfo_genre_step "Genre: A, B" {"A", "B"} (by decide) (by decide),
    scanInfo_language_step "Language: C" {"C"} (by decide) (by decide) (by decide),
    scanInfo_marker_step d h2 h3 h1]
  decide

/-- C2 witness, with `"Description"` itself as the marker fragment. -/
theorem c2_witness :
    (containsStr "Description" "Description" = true
      ∧ containsStr "Description" "Genre:" = false
      ∧ containsStr "Description" "Language:" = false)
    ∧ scanInfo ["Genre: A, B", "Language: C", "Description", "Hello ", "world"] false "" ∅ ∅ =
        .ok ("Hello world", {"A", "B"}, {"C"}) :=
  ⟨⟨by decide, by decide, by decide⟩,
    c2_amended_extractor_on_marked_sequence.1 "Description" (by decide) (by decide) (by decide)⟩

/-! ## Claim C3: `parse_items` list parsing -/

/-- C3 counterexample: on `"a:b:c"` the code keeps only `"b"`, while the
claim's everything-after-the-first-colon reading would keep `"b:c"`; and
on a colon-free fragment the error produced is `Other "items list"`, not
a `Game`/`Malformed` field error. -/
theorem c3_cex_first_colon :
    parse_items "a:b:c" = .ok {"b"}
    ∧ parse_items_claimSpec "a:b:c" = .ok {"b:c"}
    ∧ ({"b"} : Finset String) ≠ {"b:c"}
    ∧ parse_items "nocolon" = .error (.Other "items list")
    ∧ (ScrapeError.Other "items list").isGameErr = false := by
  refine ⟨by decide, by decide, by decide, by decide, by decide⟩

/-- C3 as amended: `parse_items` takes the chunk between the first and
second colon, trims one leading space and one trailing newline, splits on
commas, trims one leading space from each piece, and fails with
`Other "items list"` exactly when the fragment contains no colon. -/
theorem c3_amended_parse_items_between_colons (line : String) :
    parse_items line = parse_items_amendedSpec line := by
  unfold parse_items parse_items_amendedSpec
  by_cases h : ':' ∈ line.data
  · rw [splitOnChar_eq_cons ':' line.data, if_pos h,
      splitOnChar_eq_cons ':' (dropAfterC ':' line.data)]
    simp [h]
  · rw [splitOnChar_of_not_mem h]
    simp [h]

/-! ## Claim C4: listing-page fetch failure vs zero matches -/

/-- C4 counterexample: a failing HTTP fetch of listing page 3 produces the
propagated `HttpError` (spec: `Transport`) error — not a `Page`
(spec: `PageMalformed`) error, and it carries no page number. -/
theorem c4_cex_fetch_failure_is_transport :
    parse_page c4fetch 3 "https://1337x.to" "johncena141" =
      .error (.HttpError ⟨"timeout"⟩)
    ∧ (ScrapeError.HttpError ⟨"timeout"⟩).isPageErr = false :=
  ⟨by decide, by decide⟩

/-- C4 as amended: when the HTTP fetch of a listing page fails, the result
is the propagated `HttpError` (spec: `Transport`) error, which is not of
the page-numbered `Page` kind; when the fetch succeeds but the link
selector matches zero elements, the result is the successful empty list. -/
theorem c4_amended_fetch_failure_and_empty_page :
    (∀ (fetch : String → Except HttpError PageDoc) (page : Nat) (b u : String)
        (e : HttpError),
      fetch (pageUrl b u page) = .error e →
      parse_page fetch page b u = .error (.HttpError e)
        ∧ (ScrapeError.HttpError e).isPageErr = false)
    ∧ (∀ (fetch : String → Except HttpError PageDoc) (page : Nat) (b u : String),
      fetch (pageUrl b u page) = .ok [] →
      parse_page fetch page b u = .ok []) := by
  constructor
  · intro fetch page b u e h
    refine ⟨?_, rfl⟩
    simp only [parse_page, h]
  · intro fetch page b u h
    simp only [parse_page, h]
    rfl

/-- C4 witness, at page 3 with the always-failing oracle. -/
theorem c4_witness :
    c4fetch (pageUrl "b" "u" 3) = .error ⟨"timeout"⟩
    ∧ (parse_page c4fetch 3 "b" "u" = .error (.HttpError ⟨"timeout"⟩)
      ∧ (ScrapeError.HttpError ⟨"timeout"⟩).isPageErr = false) :=
  ⟨rfl, c4_amended_fetch_failure_and_empty_page.1 c4fetch 3 "b" "u" ⟨"timeout"⟩ rfl⟩

/-! ## Claim C5: uploader filter and renames -/

/-- C5 counterexample: a record produced by the detail-page parser whose
genre set contains the uploader tag `"johncena141"` and whose language set
contains the unrenamed `"GNU/Linux Wine"`: the filter and the renames are
applied to `tags` only, never to `genres`/`languages`. -/
theorem c5_cex_genres_languages_unfiltered :
    parse_game c5fetch "/torrent/123/x/" = .ok c5game
    ∧ "johncena141" ∈ c5game.genres
    ∧ "GNU/Linux Wine" ∈ c5game.languages := by
  refine ⟨by decide, by decide, by decide⟩

/-- C5 as amended: the uploader-filter/rename invariant holds for the
`tags` set (for every subtitle, the extracted tag set contains neither
`"johncena141"` nor an unrenamed `"GNU/Linux Wine"`/`"GNU/Linux Native"`),
but not for `genres`/`languages`; tag extraction on
`"[johncena141] [GNU/Linux Native] [Action]"` yields `{"Native", "Action"}`. -/
theorem c5_amended_tags_invariant :
    (∀ s : String,
      parse_tags s ∩ ({"johncena141", "GNU/Linux Wine", "GNU/Linux Native"} : Finset String) = ∅)
    ∧ parse_tags "[johncena141] [GNU/Linux Native] [Action]" = {"Native", "Action"} := by
  refine ⟨?_, by decide⟩
  intro s
  rw [Finset.eq_empty_iff_forall_not_mem]
  intro x hx
  rcases Finset.mem_inter.1 hx with ⟨hxt, hxl⟩
  rcases mem_parse_tags hxt with ⟨n1, n2, n3⟩
  rcases Finset.mem_insert.1 hxl with h | h
  · exact n1 h
  · rcases Finset.mem_insert.1 h with h | h
    · exact n2 h
    · exact n3 (Finset.mem_singleton.1 h)

/-! ## Claim C6: pagination discovery -/

/-- C6 counterexample: an href that ends in `/42/` but carries a newline
earlier. `.` in the regex crate does not match `\n`, so the leftmost
`RE_PAGE` match is confined to the first line: on `"/1/\nx/42/"` it is
`/1/` with capture `1`, and `get_num_pages` returns 1, not the trailing
42 the claim requires for every href ending in `.../42/`. -/
theorem c6_cex_newline_href :
    get_num_pages (some ("/1/\nx" ++ "/42/")) = .ok 1
    ∧ (Except.ok 1 : Except ScrapeError Nat) ≠ .ok 42 :=
  ⟨by decide, by decide⟩

/-- C6 as amended: on a newline-free href ending in `/42/` pagination
discovery returns 42 (on a multiline href the leftmost-first match is
instead confined to the first line containing a `/digits/` component); a
missing pagination link gives `Page "pagination" 1`, a missing numeric
capture gives `Page "page number from pagination link" 1`, and every
failure is one of those two page-1 `Page` (spec: `PageMalformed`) errors. -/
theorem c6_pagination_trailing_number :
    (∀ p : String, '\n' ∉ p.data → get_num_pages (some (p ++ "/42/")) = .ok 42)
    ∧ get_num_pages none = .error (.Page "pagination" 1)
    ∧ (∀ href : String, (lastSlashNum href).bind parseUsize = none →
        get_num_pages (some href) = .error (.Page "page number from pagination link" 1))
    ∧ (∀ h e, get_num_pages h = .error e →
        e = .Page "pagination" 1 ∨ e = .Page "page number from pagination link" 1) := by
  refine ⟨?_, by decide, ?_, ?_⟩
  · intro p hp
    have hd : (p ++ "/42/").data = p.data ++ ['/', '4', '2', '/'] := by
      cases p
      rfl
    have hnn : '\n' ∉ p.data ++ ['/', '4', '2', '/'] := by
      intro hm
      rcases List.mem_append.1 hm with hm | hm
      · exact hp hm
      · exact absurd hm (by decide)
    simp only [get_num_pages, lastSlashNum, hd, splitOnChar_of_not_mem hnn,
      firstSegSlashNum, lastSlashNumAux_append42]
    rfl
  · intro href h
    simp only [get_num_pages, h]
  · intro h e hEq
    rcases h with _ | href
    · simp only [get_num_pages] at hEq
      injection hEq with h'
      exact Or.inl h'.symm
    · simp only [get_num_pages] at hEq
      rcases hb : (lastSlashNum href).bind parseUsize with _ | n <;> rw [hb] at hEq
      · injection hEq with h'
        exact Or.inr h'.symm
      · cases hEq

/-- C6 witness: a concrete failing href and a concrete newline-free
successful one. -/
theorem c6_witness :
    ((lastSlashNum "/x/").bind parseUsize = none
      ∧ get_num_pages (some "/x/") = .error (.Page "page number from pagination link" 1))
    ∧ ('\n' ∉ ("/user-torrents" : String).data
      ∧ get_num_pages (some ("/user-torrents" ++ "/42/")) = .ok 42) :=
  ⟨⟨by decide, c6_pagination_trailing_number.2.2.1 "/x/" (by decide)⟩,
    ⟨by decide, c6_pagination_trailing_number.1 "/user-torrents" (by decide)⟩⟩

/-! ## Claim C7: the version token -/

/-- C7 counterexample: on subtitle `"v1.0[x] foo"` the first token
`"v1.0[x]"` is not of the bracketed form `[...]`, yet the computed version
is absent, contradicting the claim's "otherwise version equals that first
token". -/
theorem c7_cex_nonbracketed_token_dropped :
    firstTokStr "v1.0[x] foo" = "v1.0[x]"
    ∧ isBracketForm (firstTok "v1.0[x] foo") = false
    ∧ parse_version "v1.0[x] foo" = none :=
  ⟨by decide, by decide, by decide⟩

/-- C7 as amended: a bracketed-form first token indeed yields no version,
but the actual test is containment: the version is absent exactly when the
first space-delimited token contains both `[` and `]`, and otherwise the
version is that token; `"[Wine] v1.0"` has no version and `"1.2.3 [Wine]"`
has version `"1.2.3"`. -/
theorem c7_amended_version_rule :
    (∀ s : String, isBracketForm (firstTok s) = true → parse_version s = none)
    ∧ (∀ s : String, parse_version s = none ↔ ('[' ∈ firstTok s ∧ ']' ∈ firstTok s))
    ∧ (∀ s : String, ¬('[' ∈ firstTok s ∧ ']' ∈ firstTok s) →
        parse_version s = some (firstTokStr s))
    ∧ parse_version "[Wine] v1.0" = none
    ∧ parse_version "1.2.3 [Wine]" = some "1.2.3" := by
  refine ⟨?_, ?_, ?_, by decide, by decide⟩
  · intro s h
    rw [isBracketForm, Bool.and_eq_true, beq_iff_eq, beq_iff_eq] at h
    obtain ⟨h1, h2⟩ := h
    have m1 : '[' ∈ firstTok s := by
      rcases hl : firstTok s with _ | ⟨c, t⟩ <;> rw [hl] at h1
      · simp at h1
      · simp only [List.head?_cons, Option.some.injEq] at h1
        subst h1
        exact List.mem_cons_self _ _
    have m2 : ']' ∈ firstTok s := by
      rcases List.mem_getLast?_eq_getLast
          (show ']' ∈ (firstTok s).getLast? from by rw [Option.mem_def, h2]) with ⟨hne, hEq⟩
      exact hEq ▸ List.getLast_mem hne
    rw [parse_version_eq, if_pos ⟨m1, m2⟩]
  · intro s
    rw [parse_version_eq]
    by_cases h : ('[' ∈ firstTok s ∧ ']' ∈ firstTok s) <;> simp [h]
  · intro s h
    rw [parse_version_eq, if_neg h]

/-- C7 witness, at subtitle `"[Wine] v1.0"`. -/
theorem c7_witness :
    isBracketForm (firstTok "[Wine] v1.0") = true ∧ parse_version "[Wine] v1.0" = none :=
  ⟨by decide, c7_amended_version_rule.1 "[Wine] v1.0" (by decide)⟩

/-! ## Claim C8: missing hash region -/

/-- C8: a detail document whose hash region is absent but which is
otherwise parseable yields exactly the `Game "hash"` (spec:
`Malformed("hash")`) error and no record — `parse_game` only constructs a
record after every required field has been extracted — and in the pipeline
the surrounding items are still parsed: the three-item page with the
middle item's hash missing produces `[record, hash error, record]`. -/
theorem c8_hash_missing_single_malformed_outcome :
    (∀ (gf : String → Except HttpError Doc) (url : String) (document : Doc)
        (i : Nat) (n s : String),
      (lastSlashNum url).bind parseUsize = some i →
      gf url = .ok document →
      document.nameText = some n →
      document.subtitleText = some s →
      document.hashText = none →
      parse_game gf url = .error (.Game "hash" url))
    ∧ get_games_n_pages c8pfetch c8gfetch "b" "u" 1 1 =
        [.ok c8game1, .error (.Game "hash" "/torrent/2/b/"), .ok c8game3] := by
  refine ⟨?_, by decide⟩
  intro gf url document i n s hid hf hn hs hh
  simp only [parse_game, hid, hf, hn, hs, hh]

/-- C8 witness, at the hashless document of the middle item. -/
theorem c8_witness :
    ((lastSlashNum "/torrent/2/b/").bind parseUsize = some 2
      ∧ c8gfetch "/torrent/2/b/" = .ok (c8doc none)
      ∧ (c8doc none).nameText = some "N"
      ∧ (c8doc none).subtitleText = some "1.0 [GNU/Linux Wine]"
      ∧ (c8doc none).hashText = none)
    ∧ parse_game c8gfetch "/torrent/2/b/" = .error (.Game "hash" "/torrent/2/b/") :=
  ⟨⟨by decide, by decide, rfl, rfl, rfl⟩,
    c8_hash_missing_single_malformed_outcome.1 c8gfetch "/torrent/2/b/" (c8doc none)
      2 "N" "1.0 [GNU/Linux Wine]" (by decide) (by decide) rfl rfl rfl⟩

/-! ## Claim C9: fragments that reach `parse_items` contain a colon -/

/-- C9: every fragment on which the extractor loop invokes `parse_items`
contains `"Genre:"` or `"Language:"`, hence a colon, so the
`Other "items list"` branch is unreachable from the loop; the extreme
fragment `"Genre:"` (colon last) succeeds with the set containing exactly
the empty string, which becomes the genre (resp. language) set. -/
theorem c9_items_error_unreachable_from_loop :
    (∀ t : String, containsStr t "Genre:" = true ∨ containsStr t "Language:" = true →
      (parse_items t).isOk = true)
    ∧ parse_items "Genre:" = .ok {""}
    ∧ scanInfo ["Genre:"] false "" ∅ ∅ = .ok ("", {""}, ∅)
    ∧ scanInfo ["Language:"] false "" ∅ ∅ = .ok ("", ∅, {""}) := by
  refine ⟨?_, by decide, by decide, by decide⟩
  intro t ht
  have hc : ':' ∈ t.data := by
    rcases ht with h | h
    · exact containsStr_mem h ':' (by decide)
    · exact containsStr_mem h ':' (by decide)
  rcases parse_items_ok_of_colon hc with ⟨s, hs⟩
  rw [hs]
  rfl

/-- C9 witness, at the fragment `"Genre:"`. -/
theorem c9_witness :
    ((containsStr "Genre:" "Genre:" = true ∨ containsStr "Genre:" "Language:" = true)
      ∧ (parse_items "Genre:").isOk = true)
    ∧ parse_items "Genre:" = .ok {""} :=
  ⟨⟨Or.inl (by decide),
    c9_items_error_unreachable_from_loop.1 "Genre:" (Or.inl (by decide))⟩,
    c9_items_error_unreachable_from_loop.2.1⟩

/-! ## Claim C10: the version-absence test is containment -/

/-- C10: the version-absence test is substring containment of the two
bracket characters, not full bracketing: a first space-token containing
both `[` and `]` anywhere suppresses the version (e.g. `"v1.0[x]"`, which
is not of the form `[...]`), and a produced version is always the first
token, which then lacks `[` or lacks `]`. -/
theorem c10_version_test_is_containment :
    (∀ s : String, '[' ∈ firstTok s → ']' ∈ firstTok s → parse_version s = none)
    ∧ (isBracketForm (firstTok "v1.0[x]") = false ∧ parse_version "v1.0[x]" = none)
    ∧ (∀ s v, parse_version s = some v →
        v = firstTokStr s ∧ ('[' ∉ firstTok s ∨ ']' ∉ firstTok s)) := by
  refine ⟨?_, ⟨by decide, by decide⟩, ?_⟩
  · intro s h1 h2
    rw [parse_version_eq, if_pos ⟨h1, h2⟩]
  · intro s v h
    rw [parse_version_eq] at h
    by_cases hb : ('[' ∈ firstTok s ∧ ']' ∈ firstTok s)
    · rw [if_pos hb] at h
      cases h
    · rw [if_neg hb] at h
      exact ⟨(Option.some.inj h).symm, not_and_or.1 hb⟩

/-- C10 witness, at subtitle `"v1.0[x]"`. -/
theorem c10_witness :
    ('[' ∈ firstTok "v1.0[x]" ∧ ']' ∈ firstTok "v1.0[x]")
    ∧ parse_version "v1.0[x]" = none :=
  ⟨⟨by decide, by decide⟩,
    c10_version_test_is_containment.1 "v1.0[x]" (by decide) (by decide)⟩
